import Mathlib

/-!
Shallow embedding of the two teaching programs of the repository
(`src/Programs/Syllabus/simple_trait.rs` and
`src/Programs/Syllabus/struct_clone.rs`).

Observable behaviour is the list of lines written to standard output, so
both `main` functions are embedded as pure functions returning
`List String` (one element per `println!` call).  A second, checked,
embedding runs each `main` as a sequence of instructions over an explicit
state that tracks ownership (a binding becomes unavailable once moved),
returning `Except`, so that claims about the absence of runtime error
paths and about copy-versus-move behaviour can be stated.
-/

/-- `Person`: one text attribute `name`, from Program A (`simple_trait.rs`). -/
structure Person where
  name : String
deriving DecidableEq

/-- The `greet` trait of Program A: one operation `hello` taking `self` by
reference.  Its only effect is printing, so it is embedded as returning the
printed lines. -/
class greet (α : Type) where
  hello : α → List String

/-- `impl greet for Person`: `hello` prints `Hello {name}`. -/
instance : greet Person where
  hello p := ["Hello " ++ p.name]

/-- `fn check<T:greet>(data:T) { data.hello(); }` — the generic function of
Program A, constrained by the `greet` capability; it calls `hello` on its
argument once. -/
def check {T : Type} [greet T] (data : T) : List String :=
  greet.hello data

/-- Program A `main`: construct `p1 = Person{name:"Kamal"}`, call
`p1.hello()`, then `check(p1)`.  Result: the lines printed, in order. -/
def mainA : List String :=
  let p1 : Person := { name := "Kamal" }
  greet.hello p1 ++ check p1

/-- `book`: two text attributes and an `i32` quantity, from Program B
(`struct_clone.rs`).  The borrowed `&str` fields are embedded as the string
values they reference (string literals, alive for the whole process); the
`i32` is embedded as `Int` (its range is checked where the literal is
introduced in the checked semantics). -/
structure book where
  name : String
  date : String
  quantity : Int
deriving DecidableEq

/-- One character of Rust's `Debug` rendering of a string: quote, backslash
and the common control characters are escaped, every other character is
kept as itself (sufficient for the printable ASCII data of this program). -/
def escapeChar (c : Char) : String :=
  if c = '"' then "\\\""
  else if c = '\\' then "\\\\"
  else if c = '\n' then "\\n"
  else if c = '\t' then "\\t"
  else if c = '\r' then "\\r"
  else String.singleton c

/-- Rust's `Debug` rendering of a `&str`: the escaped text between double
quotes. -/
def strDebug (s : String) : String :=
  "\"" ++ String.join (s.toList.map escapeChar) ++ "\""

/-- The `#[derive(Debug)]` rendering of a `book` value, as produced by
`{:?}`: the declared struct name (lowercase `book`), then each field as
`name: value` in declaration order, inside braces. -/
def book.debugFmt (b : book) : String :=
  "book \x7b name: " ++ strDebug b.name ++ ", date: " ++ strDebug b.date ++
    ", quantity: " ++ toString b.quantity ++ " \x7d"

/-- The body of Program B's `for book in v1` loop: for each element print
`name {value}` then `full details = {:?}`. -/
def iterPrint : List book → List String
  | [] => []
  | bk :: rest =>
      ("name " ++ bk.name) :: ("full details = " ++ book.debugFmt bk) :: iterPrint rest

/-- Program B `main`: construct `b1`, copy it into `cb1`, build
`v1 = vec![b1]`, iterate `v1` printing two lines per element, then print
`cb1 = {:?}`.  Result: the lines printed, in order. -/
def mainB : List String :=
  let b1 : book := { name := "Rust programmong", date := "19-Sep-2025", quantity := 10 }
  let cb1 := b1
  let v1 : List book := [b1]
  iterPrint v1 ++ ["cb1 = " ++ book.debugFmt cb1]

/-- The `book` literal constructed in Program B's `main`. -/
def bookLit : book :=
  { name := "Rust programmong", date := "19-Sep-2025", quantity := 10 }

/-- Least `i32` value. -/
def i32Min : Int := -2147483648

/-- Greatest `i32` value. -/
def i32Max : Int := 2147483647

/-- Whether an integer fits in `i32`. -/
def i32InRange (n : Int) : Bool :=
  decide (i32Min ≤ n) && decide (n ≤ i32Max)

/-- The instructions of Program A's `main`, in source order. -/
inductive AInstr
  | construct
  | callHello
  | callCheck
deriving DecidableEq

/-- Checked state of Program A: the binding `p1` (`none` before
construction and after being moved) and the output so far. -/
structure AState where
  p1 : Option Person
  out : List String
deriving DecidableEq

/-- Initial state of Program A. -/
def initA : AState := ⟨none, []⟩

/-- One checked step of Program A.  `p1.hello()` borrows `p1` (it stays
available); `check(p1)` takes `p1` by value, moving it (the binding becomes
unavailable afterwards, since `Person` is not `Copy`).  Using an
unavailable binding is the error path. -/
def stepA : AInstr → AState → Except String AState
  | .construct, s => .ok { s with p1 := some { name := "Kamal" } }
  | .callHello, s =>
      match s.p1 with
      | some p => .ok { s with out := s.out ++ greet.hello p }
      | none => .error "borrow of moved or unbound value p1"
  | .callCheck, s =>
      match s.p1 with
      | some p => .ok { p1 := none, out := s.out ++ check p }
      | none => .error "use of moved or unbound value p1"

/-- Run a list of Program A instructions, stopping at the first error. -/
def runStepsA : List AInstr → AState → Except String AState
  | [], s => .ok s
  | i :: rest, s =>
      match stepA i s with
      | .ok s2 => runStepsA rest s2
      | .error e => .error e

/-- Program A's instruction sequence. -/
def progAInstrs : List AInstr := [.construct, .callHello, .callCheck]

/-- Checked run of Program A, yielding the printed lines on success. -/
def runProgA : Except String (List String) :=
  Except.map AState.out (runStepsA progAInstrs initA)

/-- All states Program A passes through (initial state included); an error
cuts the trace short. -/
def traceA : List AInstr → AState → List AState
  | [], s => [s]
  | i :: rest, s =>
      s :: (match stepA i s with
            | .ok s2 => traceA rest s2
            | .error _ => [])

/-- Whether a Program A state keeps `Person.name` at its initial value. -/
def personNameOk (s : AState) : Bool :=
  match s.p1 with
  | some p => p.name == "Kamal"
  | none => true

/-- The instructions of Program B's `main`, in source order. -/
inductive BInstr
  | constructB1
  | copyToCb1
  | mkVec
  | iterate
  | printCb1
deriving DecidableEq

/-- Checked state of Program B: the bindings `b1`, `cb1`, `v1` (`none`
before construction or after being moved) and the output so far. -/
structure BState where
  b1 : Option book
  cb1 : Option book
  v1 : Option (List book)
  out : List String
deriving DecidableEq

/-- Initial state of Program B. -/
def initB : BState := ⟨none, none, none, []⟩

/-- One checked step of Program B.  `book` is `Copy`, so `let cb1 = b1` and
`vec![b1]` copy the value and leave `b1` available; the `for` loop consumes
`v1` (it becomes unavailable).  The integer literal must fit in `i32`.
Using an unavailable binding is the error path. -/
def stepB : BInstr → BState → Except String BState
  | .constructB1, s =>
      if i32InRange 10 then .ok { s with b1 := some bookLit }
      else .error "integer literal out of i32 range"
  | .copyToCb1, s =>
      match s.b1 with
      | some b => .ok { s with cb1 := some b }
      | none => .error "use of moved or unbound value b1"
  | .mkVec, s =>
      match s.b1 with
      | some b => .ok { s with v1 := some [b] }
      | none => .error "use of moved or unbound value b1"
  | .iterate, s =>
      match s.v1 with
      | some v => .ok { s with v1 := none, out := s.out ++ iterPrint v }
      | none => .error "use of moved or unbound value v1"
  | .printCb1, s =>
      match s.cb1 with
      | some b => .ok { s with out := s.out ++ ["cb1 = " ++ book.debugFmt b] }
      | none => .error "use of moved or unbound value cb1"

/-- Run a list of Program B instructions, stopping at the first error. -/
def runStepsB : List BInstr → BState → Except String BState
  | [], s => .ok s
  | i :: rest, s =>
      match stepB i s with
      | .ok s2 => runStepsB rest s2
      | .error e => .error e

/-- Program B's instruction sequence. -/
def progBInstrs : List BInstr :=
  [.constructB1, .copyToCb1, .mkVec, .iterate, .printCb1]

/-- Checked run of Program B, yielding the printed lines on success. -/
def runProgB : Except String (List String) :=
  Except.map BState.out (runStepsB progBInstrs initB)

/-- The run environment of either program: standard input and arguments.
Both programs take no arguments and read nothing, so their embeddings
ignore it. -/
structure Env where
  stdinLines : List String
  argv : List String
deriving DecidableEq

/-- A run of Program A in an environment (the program reads nothing). -/
def runA (_e : Env) : List String := mainA

/-- A run of Program B in an environment (the program reads nothing). -/
def runB (_e : Env) : List String := mainB

/-- `let cb1 = b1` for a `Copy` type: assignment duplicates the value. -/
def copyBook (b : book) : book := b

/-- Mutating a `book`'s quantity field (the one primitive field). -/
def withQuantity (b : book) (q : Int) : book :=
  { b with quantity := q }

/-- Duplication: the original binding and the copy, as a pair. -/
def dupBook (b : book) : book × book := (b, copyBook b)

/-- Mutate the copy of a (original, copy) pair, leaving the original. -/
def mutateCopy (p : book × book) (q : Int) : book × book :=
  (p.1, withQuantity p.2 q)

/-- C1 counterexample: Program B's output is not the three lines the claim
quotes, because the derived debug rendering uses the declared struct name
`book` (lowercase), not `Book`. -/
theorem mainB_ne_capitalized : mainB ≠ ["name Rust programmong",
    "full details = Book \x7b name: \"Rust programmong\", date: \"19-Sep-2025\", quantity: 10 \x7d",
    "cb1 = Book \x7b name: \"Rust programmong\", date: \"19-Sep-2025\", quantity: 10 \x7d"] := by
  decide

/-- C1 (amended): Program B, run with no input, prints exactly three lines
in this order: `name Rust programmong`, then the full-details line, then
the cb1 line, where the structured debug rendering is
`book \x7b name: "Rust programmong", date: "19-Sep-2025", quantity: 10 \x7d`
with the struct name rendered lowercase `book` as declared. -/
theorem mainB_lines_exact : mainB = ["name Rust programmong",
    "full details = book \x7b name: \"Rust programmong\", date: \"19-Sep-2025\", quantity: 10 \x7d",
    "cb1 = book \x7b name: \"Rust programmong\", date: \"19-Sep-2025\", quantity: 10 \x7d"] :=
  rfl

/-- C2: Program A, run with no input, produces exactly two lines of
output, `Hello Kamal` followed by `Hello Kamal`, and nothing else. -/
theorem mainA_two_hello_lines : mainA = ["Hello Kamal", "Hello Kamal"] :=
  rfl

/-- C3: for every value of every type satisfying the greet capability,
`check` on that value produces exactly the observable effect of one
invocation of that value's `hello` operation, and nothing else. -/
theorem check_calls_hello_once {T : Type} [greet T] (data : T) :
    check data = greet.hello data :=
  rfl

/-- C4 counterexample: Program B does not produce four lines of output. -/
theorem mainB_not_four_lines : ¬ (mainB.length = 4) := by
  decide

/-- C4 (amended): Program B, run with no input, produces exactly three
lines of output. -/
theorem mainB_three_lines : mainB.length = 3 :=
  rfl

/-- C5: for every `Person` value, `hello` has as its only observable
effect writing the single line `Hello {name}` to standard output. -/
theorem person_hello_line (p : Person) :
    greet.hello p = ["Hello " ++ p.name] :=
  rfl

/-- C6: duplicating a `Book` yields a fully equal copy (same name, date
and quantity), and mutating the copy leaves the original unchanged while
the mutation itself takes effect on the copy. -/
theorem book_copy_independent (b : book) (q : Int) :
    (dupBook b).2 = b ∧
    (dupBook b).2.name = b.name ∧
    (dupBook b).2.date = b.date ∧
    (dupBook b).2.quantity = b.quantity ∧
    (mutateCopy (dupBook b) q).1 = b ∧
    (mutateCopy (dupBook b) q).2.quantity = q :=
  ⟨rfl, rfl, rfl, rfl, rfl, rfl⟩

/-- C7: both programs are deterministic — any two runs, in any two
environments (they read no input), produce identical output. -/
theorem programs_deterministic (e1 e2 : Env) :
    runA e1 = runA e2 ∧ runB e1 = runB e2 :=
  ⟨rfl, rfl⟩

/-- C8: the checked executions of both programs, in which every use of a
moved binding and any out-of-range integer literal is an error, complete
without reaching any error branch and print exactly the expected lines. -/
theorem no_runtime_error :
    runProgA = Except.ok mainA ∧ runProgB = Except.ok mainB :=
  ⟨rfl, rfl⟩

/-- C9: in every state Program A passes through, from construction to
exit, the `Person` bound to `p1` (whenever it is live) has its `name`
field equal to the initial value `Kamal`. -/
theorem person_name_invariant :
    (traceA progAInstrs initA).all personNameOk = true :=
  rfl

/-- C10: `vec![b1]` copies `b1` into the vector rather than consuming it —
after the vector is built, `b1` is still live and equal to the constructed
literal — and after the vector is consumed by iteration, `b1` and `cb1`
are both still live and field-wise equal to that literal (name
`Rust programmong`, date `19-Sep-2025`, quantity 10), with the iterated
element's lines in the output. -/
theorem vec_copy_frame :
    runStepsB [BInstr.constructB1, BInstr.copyToCb1, BInstr.mkVec] initB
      = Except.ok ⟨some bookLit, some bookLit, some [bookLit], []⟩ ∧
    runStepsB progBInstrs initB
      = Except.ok ⟨some bookLit, some bookLit, none, mainB⟩ ∧
    bookLit.name = "Rust programmong" ∧
    bookLit.date = "19-Sep-2025" ∧
    bookLit.quantity = 10 :=
  ⟨rfl, rfl, rfl, rfl, rfl⟩
